import Mathlib

/-!
Verification of the LinkedIn founder scraper (LinkedinFounderScraper.py and
analysis.py) against its natural-language specification.

The document tree handed over by the browser-automation collaborator is
modelled as an inductive tree of nodes carrying a tag name, an `id`
attribute, a class list, and the rendered text that Selenium's `.text`
property exposes.  CSS-selector queries (`find_elements`) search the
proper descendants of a node in document (pre-order) order, exactly as
Selenium does relative to an element.
-/

namespace Scraper

/-! ### Python string primitives

`strip`, `split`, `replace` and the `in` operator are modelled over the
character list of a string, by structural recursion (with the input length
as fuel where a match consumes several characters), so that every concrete
extraction evaluates inside the kernel. -/

def isPrefixList : List Char → List Char → Bool
  | [], _ => true
  | _ :: _, [] => false
  | a :: as, b :: bs => a == b && isPrefixList as bs

/-- Python `s.strip()`: drop whitespace from both ends. -/
def pyStrip (s : String) : String :=
  ⟨((s.data.dropWhile Char.isWhitespace).reverse.dropWhile Char.isWhitespace).reverse⟩

def splitGo (pat : List Char) : Nat → List Char → List Char → List (List Char)
  | _, acc, [] => [acc.reverse]
  | 0, acc, xs => [acc.reverse ++ xs]
  | fuel + 1, acc, x :: xs =>
    if isPrefixList pat (x :: xs) then
      acc.reverse :: splitGo pat fuel [] (xs.drop (pat.length - 1))
    else
      splitGo pat fuel (x :: acc) xs

/-- Python `s.split(pat)` for a non-empty pattern: the pieces between
non-overlapping occurrences of `pat`, scanned left to right. -/
def pySplit (s pat : String) : List String :=
  (splitGo pat.data s.data.length [] s.data).map fun l => ⟨l⟩

def replaceGo (pat rep : List Char) : Nat → List Char → List Char
  | _, [] => []
  | 0, xs => xs
  | fuel + 1, x :: xs =>
    if isPrefixList pat (x :: xs) then
      rep ++ replaceGo pat rep fuel (xs.drop (pat.length - 1))
    else
      x :: replaceGo pat rep fuel xs

/-- Python `s.replace(pat, rep)` for a non-empty pattern. -/
def pyReplace (s pat rep : String) : String :=
  ⟨replaceGo pat.data rep.data s.data.length s.data⟩

/-- `pat in s` for a non-empty pattern, as Python's `in` operator on
strings: true iff splitting on the pattern yields more than one piece. -/
def strContains (s pat : String) : Bool :=
  (pySplit s pat).length != 1

/-- A node of the document tree: tag name, `id` attribute, class list,
rendered text (`element.text`), children. -/
inductive Node where
  | node (tag : String) (idAttr : String) (classes : List String)
      (text : String) (children : List Node)

def Node.tag : Node → String
  | .node t _ _ _ _ => t

def Node.idAttr : Node → String
  | .node _ i _ _ _ => i

def Node.classes : Node → List String
  | .node _ _ c _ _ => c

def Node.text : Node → String
  | .node _ _ _ tx _ => tx

def Node.children : Node → List Node
  | .node _ _ _ _ cs => cs

mutual

/-- All proper descendants of a node, in document (pre-order) order. -/
def Node.descendants : Node → List Node
  | .node _ _ _ _ cs => descList cs

def descList : List Node → List Node
  | [] => []
  | c :: cs => c :: c.descendants ++ descList cs

end

/-- A simple CSS selector `tag.cls1.cls2` (tag optional, as in `.t-bold`). -/
structure Sel where
  tag : Option String
  cls : List String

def matchesSel (sel : Sel) (n : Node) : Bool :=
  (match sel.tag with
   | none => true
   | some t => n.tag == t)
  && sel.cls.all (fun c => n.classes.contains c)

/-- `element.find_elements(By.CSS_SELECTOR, sel)`: all matching proper
descendants of `root`, in document order. -/
def cssAll (root : Node) (sel : Sel) : List Node :=
  root.descendants.filter (matchesSel sel)

/-- A selector as used at document level: either simple, or a descendant
combinator `outer inner` (e.g. `div.ph5.pb5 h1`). -/
inductive Css where
  | simple (s : Sel)
  | inside (outer inner : Sel)

def cssQuery (root : Node) : Css → List Node
  | .simple s => cssAll root s
  | .inside o i => (cssAll root o).flatMap (fun n => cssAll n i)

/-! ## Field Extractor (lines 247-366 and 466-573 of the scraper)

Each field is extracted by running an ordered list of selectors (Tier A);
the first selector with at least one match wins and the first match's
stripped text is recorded.  If the field is still missing or falsy, the
item's flattened text is split on line breaks and a fixed line index is
stripped and used (Tier B). -/

/-- The selector loop for one field: for each selector, `find_elements`;
the first selector whose result list is non-empty sets the field to the
first element's stripped text and breaks. -/
def firstSelText (item : Node) : List Sel → Option String
  | [] => none
  | sel :: rest =>
    match cssAll item sel with
    | [] => firstSelText item rest
    | e :: _ => some (pyStrip e.text)

/-- `item.text.split(chr 10)`, the flattened lines of the entry. -/
def textLines (item : Node) : List String :=
  pySplit item.text "\n"

/-- Python truthiness test on an optional field: `key not in d or not d[key]`. -/
def optFalsy : Option String → Bool
  | none => true
  | some s => s == ""

/-- Tier A over `sels`, then — only when the field is still absent or the
empty string — Tier B: take line `idx` of the flattened text, stripped,
provided the line count exceeds `idx` (the source guards with `if lines:`
for index 0, `len(lines) > 1` for index 1, `len(lines) > 2` for index 2). -/
def fieldWithFallback (item : Node) (sels : List Sel) (idx : Nat) : Option String :=
  let a := firstSelText item sels
  if optFalsy a then
    let lines := textLines item
    if idx < lines.length then some (pyStrip (lines.getD idx "")) else a
  else a

def separatorToken : String := " · "

/-- Compound company parsing (lines 300-306 / 321-327): if the text
contains the separator, `split(sep)` and take parts 0 and 1; otherwise the
whole text with empty employment type. -/
def splitCompany (ct : String) : String × String :=
  if strContains ct separatorToken then
    let parts := pySplit ct separatorToken
    (parts.headD "", if 1 < parts.length then parts.getD 1 "" else "")
  else (ct, "")

def title_selectors : List Sel :=
  [⟨some "div", ["mr1", "t-bold"]⟩,
   ⟨some "div", ["align-items-center", "mr1", "t-bold"]⟩,
   ⟨some "span", ["t-bold"]⟩,
   ⟨some "span", ["t-16", "t-bold"]⟩,
   ⟨none, ["t-bold"]⟩,
   ⟨some "div", ["align-items-center"]⟩]

def company_selectors : List Sel :=
  [⟨some "span", ["t-14", "t-normal"]⟩,
   ⟨some "span", ["t-14", "t-normal", "t-black"]⟩,
   ⟨some "span", ["pv-entity__secondary-title"]⟩,
   ⟨none, ["t-14", "t-normal"]⟩]

def exp_date_selectors : List Sel :=
  [⟨some "span", ["t-14", "t-normal", "t-black--light"]⟩,
   ⟨some "span", ["pv-entity__date-range"]⟩,
   ⟨none, ["t-14", "t-normal", "t-black--light"]⟩]

def school_selectors : List Sel :=
  [⟨some "div", ["mr1", "hoverable-link-text", "t-bold"]⟩,
   ⟨some "div", ["align-items-center", "mr1", "hoverable-link-text", "t-bold"]⟩,
   ⟨some "span", ["t-bold"]⟩,
   ⟨some "h3", ["pv-entity__school-name"]⟩,
   ⟨none, ["t-bold"]⟩,
   ⟨some "div", ["align-items-center"]⟩]

def degree_selectors : List Sel :=
  [⟨some "span", ["t-14", "t-normal"]⟩,
   ⟨some "span", ["pv-entity__secondary-title"]⟩,
   ⟨some "p", ["pv-entity__degree-name"]⟩,
   ⟨none, ["t-14", "t-normal"]⟩]

def edu_date_selectors : List Sel :=
  [⟨some "span", ["t-14", "t-normal", "t-black--light"]⟩,
   ⟨some "p", ["pv-entity__dates"]⟩,
   ⟨none, ["t-14", "t-normal", "t-black--light"]⟩]

/-- The `experience_data` dictionary: a field is `none` when its key was
never set, `some s` when set to the string `s`. -/
structure ExpData where
  title : Option String
  company : Option String
  employment_type : Option String
  date_range : Option String
  deriving DecidableEq, Repr

structure EduData where
  school : Option String
  degree : Option String
  date_range : Option String
  deriving DecidableEq, Repr

/-- Company/employment-type extraction: Tier A sets both via the compound
split; if `company` is still absent or falsy, Tier B re-parses line 1
(guarded by `len(lines) > 1`), again via the compound split, overwriting
both fields. -/
def extractCompanyEmployment (item : Node) : Option String × Option String :=
  let base : Option String × Option String :=
    match firstSelText item company_selectors with
    | some s => (some (splitCompany s).1, some (splitCompany s).2)
    | none => (none, none)
  if optFalsy base.1 then
    let lines := textLines item
    if 1 < lines.length then
      let ct := pyStrip (lines.getD 1 "")
      (some (splitCompany ct).1, some (splitCompany ct).2)
    else base
  else base

def extractExperienceData (item : Node) : ExpData :=
  let t := fieldWithFallback item title_selectors 0
  let ce := extractCompanyEmployment item
  let dr := fieldWithFallback item exp_date_selectors 2
  ⟨t, ce.1, ce.2, dr⟩

def extractEducationData (item : Node) : EduData :=
  let s := fieldWithFallback item school_selectors 0
  let d := fieldWithFallback item degree_selectors 1
  let dr := fieldWithFallback item edu_date_selectors 2
  ⟨s, d, dr⟩

/-- `any(d.values())`: at least one set field holds a non-empty string. -/
def ExpData.hasData (d : ExpData) : Bool :=
  !optFalsy d.title || !optFalsy d.company
    || !optFalsy d.employment_type || !optFalsy d.date_range

def EduData.hasData (d : EduData) : Bool :=
  !optFalsy d.school || !optFalsy d.degree || !optFalsy d.date_range

/-! ## Section Locator (lines 163-205 and 381-423) -/

def cardSel : Sel := ⟨some "section", ["artdeco-card"]⟩

def headingSel : Sel := ⟨some "h2", []⟩

/-- Does this card contain an `h2` whose text contains the label
(case-sensitive substring, Python's `in`)? -/
def sectionHasHeading (label : String) (sec : Node) : Bool :=
  (cssAll sec headingSel).any (fun h => strContains h.text label)

/-- The scan loop over `all_sections`: first card with a matching heading. -/
def scanSections (label : String) : List Node → Option Node
  | [] => none
  | s :: rest =>
    if sectionHasHeading label s then some s else scanSections label rest

mutual

/-- `driver.find_element(By.ID, i)` together with the ancestor chain: the
path from the first node (in document order) whose `id` attribute is `i`
up to the document root, target first. -/
def findPathById (i : String) : Node → Option (List Node)
  | .node t idv cls tx cs =>
    if idv == i then some [.node t idv cls tx cs]
    else
      match findPathList i cs with
      | some p => some (p ++ [.node t idv cls tx cs])
      | none => none

def findPathList (i : String) : List Node → Option (List Node)
  | [] => none
  | c :: cs =>
    match findPathById i c with
    | some p => some p
    | none => findPathList i cs

end

/-- The injected script: starting at the anchor element itself, walk
`parentElement` until a node whose tag is `section` is reached (`null`,
i.e. `none`, when there is no such ancestor). -/
def ascendToSectionTag (path : List Node) : Option Node :=
  path.find? (fun n => n.tag == "section")

/-- Section location: heading scan over all `section.artdeco-card` nodes
first; on failure, the anchor-ascent fallback from the node whose `id` is
`anchorId`. -/
def locateSection (doc : Node) (label anchorId : String) : Option Node :=
  match scanSections label (cssAll doc cardSel) with
  | some s => some s
  | none =>
    match findPathById anchorId doc with
    | some path => ascendToSectionTag path
    | none => none

/-! ## Item Enumerator (lines 209-245 and 428-463) -/

def listItemSel : Sel := ⟨some "li", ["artdeco-list__item"]⟩

def ulSel : Sel := ⟨some "ul", []⟩

def liSel : Sel := ⟨some "li", []⟩

def flexColumnSel : Sel := ⟨some "div", ["display-flex", "flex-column"]⟩

/-- The three enumeration approaches, first non-empty result wins:
`li.artdeco-list__item` within the section; else the `li` nodes found
under the first `ul` of the section; else `div.display-flex.flex-column`. -/
def enumerateItems (sec : Node) : List Node :=
  let a1 := cssAll sec listItemSel
  if a1.isEmpty then
    let a2 :=
      match cssAll sec ulSel with
      | [] => []
      | u :: _ => cssAll u liSel
    if a2.isEmpty then cssAll sec flexColumnSel else a2
  else a1

/-! ## Record Assembler: `scrape_founder_profile` (lines 80-580) -/

def nameSelectors : List Css :=
  [.simple ⟨some "h1", ["text-heading-xlarge"]⟩,
   .inside ⟨some "div", ["ph5", "pb5"]⟩ ⟨some "h1", []⟩,
   .simple ⟨some "h1", ["sJlATPGtyhrnuKlKqeFAWOzgrMgdvKOBE"]⟩,
   .simple ⟨some "h1", ["inline", "t-24"]⟩]

def headlineSelectors : List Css :=
  [.simple ⟨some "div", ["text-body-medium", "break-words"]⟩,
   .simple ⟨some "div", ["text-body-medium"]⟩,
   .inside ⟨some "div", ["ph5", "pb5"]⟩ ⟨some "div", ["text-body-medium"]⟩]

/-- The name/headline loop: `find_element` per selector, first hit sets the
field to the element's stripped text and breaks; `NoSuchElementException`
moves on to the next selector. -/
def firstElText (doc : Node) : List Css → Option String
  | [] => none
  | s :: rest =>
    match cssQuery doc s with
    | [] => firstElText doc rest
    | e :: _ => some (pyStrip e.text)

/-- The outcome of navigating to the profile URL: a navigation error, or a
loaded document together with `driver.current_url`. -/
inductive PageResult where
  | navError
  | loaded (currentUrl : String) (doc : Node)

/-- The `data` dictionary returned by `scrape_founder_profile`: its five
keys, fixed at initialisation (line 83-89) and never added to or removed. -/
structure ProfileData where
  profile_url : String
  name : Option String
  headline : Option String
  experiences : List ExpData
  education : List EduData
  deriving DecidableEq, Repr

def emptyProfile (url : String) : ProfileData :=
  ⟨url, none, none, [], []⟩

def extractExperiences (doc : Node) : List ExpData :=
  match locateSection doc "Experience" "experience" with
  | none => []
  | some sec =>
    ((enumerateItems sec).map extractExperienceData).filter ExpData.hasData

def extractEducation (doc : Node) : List EduData :=
  match locateSection doc "Education" "education" with
  | none => []
  | some sec =>
    ((enumerateItems sec).map extractEducationData).filter EduData.hasData

/-- `scrape_founder_profile(driver, profile_url)`: on a navigation error
or a redirect to a login/authwall URL the freshly-initialised record is
returned; otherwise name, headline, experiences and education are filled
in. -/
def scrape_founder_profile (url : String) (pg : PageResult) : ProfileData :=
  match pg with
  | .navError => emptyProfile url
  | .loaded currentUrl doc =>
    if strContains currentUrl "login" || strContains currentUrl "authwall" then
      emptyProfile url
    else
      { profile_url := url
        name := firstElText doc nameSelectors
        headline := firstElText doc headlineSelectors
        experiences := extractExperiences doc
        education := extractEducation doc }

end Scraper

namespace Analysis

open Scraper

/-! ## analysis.py -/

/-- `parse_experiences(exp_string)`: `None` models a missing (NaN) cell;
`loads` models `json.loads`, returning `none` on a decode error.  Blank or
missing input and decode failures all yield `[]`. -/
def parse_experiences (loads : String → Option (List ExpData)) :
    Option String → List ExpData
  | none => []
  | some s => if pyStrip s == "" then [] else (loads s).getD []

/-- `parse_education(edu_string)`, same shape as `parse_experiences`. -/
def parse_education (loads : String → Option (List EduData)) :
    Option String → List EduData
  | none => []
  | some s => if pyStrip s == "" then [] else (loads s).getD []

/-- The key counted by the frequency tables:
`value.replace(chr 10, chr 32).strip()`. -/
def cleanKey (s : String) : String :=
  pyStrip (pyReplace s "\n" " ")

/-- The degree-collection loop (lines 54-62): for each education entry of
each row, clean `edu.get(degree, empty)`; keep it when non-empty. -/
def collectDegrees (rows : List (List EduData)) : List String :=
  rows.flatMap (fun edus =>
    edus.flatMap (fun e =>
      let deg := cleanKey (e.degree.getD "")
      if deg == "" then [] else [deg]))

def collectSchools (rows : List (List EduData)) : List String :=
  rows.flatMap (fun edus =>
    edus.flatMap (fun e =>
      let sch := cleanKey (e.school.getD "")
      if sch == "" then [] else [sch]))

end Analysis

namespace Scraper

/-! ## Specification-side definitions

These follow the wording of the specification (not the source) and are
compared against the source-derived definitions in the theorems below. -/

def intercalateList (sep : String) : List String → String
  | [] => ""
  | [a] => a
  | a :: rest => a ++ sep ++ intercalateList sep rest

/-- Modelled from the spec: the entire substring of `s` after the first
occurrence of the separator (rejoining everything the split cut off). -/
def afterFirstSeparator (s : String) : String :=
  intercalateList separatorToken (pySplit s separatorToken).tail

/-- Modelled from the spec: the immediate list-item children of a list
container node. -/
def immediateLiChildren (u : Node) : List Node :=
  u.children.filter (fun n => n.tag == "li")

/-- Running an extraction twice over the same unchanged input. -/
def runTwice {α β : Type} (f : α → β) (x : α) : β × β :=
  (f x, f x)

/-! ## Concrete fixtures used by witnesses and counterexamples -/

/-- Scenario A: an entry with no structural matches whose flattened text
is the three classic lines. -/
def scenarioAEntry : Node :=
  .node "li" "" [] "VP Engineering\nAcme Corp · Full-time\nJan 2020 - Present" []

/-- An entry whose Tier-A company text holds the separator twice. -/
def c1Entry : Node :=
  .node "li" "" [] "Boss"
    [.node "span" "" ["t-14", "t-normal"] "Acme · Full-time · Remote" []]

/-- An entry where the first title selector matches an element whose
stripped text is empty, while line 0 of the flattened text is not. -/
def c4Entry : Node :=
  .node "li" "" [] "Fallback Title\nSome Co"
    [.node "div" "" ["mr1", "t-bold"] "   " []]

/-- An entry where the first title selector matches a non-empty text that
differs from line 0 of the flattened text. -/
def c4TierAEntry : Node :=
  .node "li" "" [] "Line Zero\nSome Co"
    [.node "div" "" ["mr1", "t-bold"] " Boss " []]

def c6LiB : Node := .node "li" "" [] "B" []

def c6InnerUl : Node := .node "ul" "" [] "" [c6LiB]

def c6LiA : Node := .node "li" "" [] "A" [c6InnerUl]

def c6Ul : Node := .node "ul" "" [] "" [c6LiA]

/-- A section whose only enumeration route is the first `ul`, holding a
nested list item inside its first list item. -/
def c6Section : Node :=
  .node "section" "" ["artdeco-card"] "" [c6Ul]

/-- A document with no heading containing the Education label and no node
whose `id` is `education`. -/
def c5Doc : Node :=
  .node "html" "" [] "" [.node "body" "" [] "" []]

/-- An experience entry carried by a canonical list item. -/
def c3Entry : Node :=
  .node "li" "" ["artdeco-list__item"]
    "VP Engineering\nAcme Corp · Full-time\nJan 2020 - Present" []

def c3Section : Node :=
  .node "section" "" ["artdeco-card"] ""
    [.node "h2" "" [] "Experience" [], c3Entry]

def c3Doc : Node :=
  .node "html" "" [] "" [c3Section]

/-- An education entry whose Tier-A degree match holds an internal line
break. -/
def scenarioCEntry : Node :=
  .node "li" "" [] "School"
    [.node "span" "" ["t-14", "t-normal"] "Bachelor\x27s\nof Science" []]

def c8Rows : List (List EduData) :=
  [[⟨some "MIT", some "Bachelor\x27s\nof Science", none⟩]]

/-- A decoder that accepts every string, used to instantiate `json.loads`. -/
def loadsConst (l : List ExpData) : String → Option (List ExpData) :=
  fun _ => some l

/-- A decoder that rejects every string. -/
def loadsReject : String → Option (List EduData) :=
  fun _ => none

def c7Record : ExpData :=
  ⟨some "VP Engineering", some "Acme Corp", some "Full-time", none⟩

end Scraper

open Scraper Analysis

/-! ## Helper lemmas -/

theorem not_optFalsy_iff (o : Option String) :
    (!optFalsy o) = true ↔ ∃ s, o = some s ∧ s ≠ "" := by
  cases o with
  | none => simp [optFalsy]
  | some s => simp [optFalsy]

theorem hasDataExp_iff (d : ExpData) :
    d.hasData = true ↔
      ∃ s, s ≠ "" ∧ (d.title = some s ∨ d.company = some s ∨
        d.employment_type = some s ∨ d.date_range = some s) := by
  rcases d with ⟨t, c, e, dr⟩
  simp only [ExpData.hasData, Bool.or_eq_true, not_optFalsy_iff]
  constructor
  · rintro (((⟨s, hs, hne⟩ | ⟨s, hs, hne⟩) | ⟨s, hs, hne⟩) | ⟨s, hs, hne⟩)
    · exact ⟨s, hne, Or.inl hs⟩
    · exact ⟨s, hne, Or.inr (Or.inl hs)⟩
    · exact ⟨s, hne, Or.inr (Or.inr (Or.inl hs))⟩
    · exact ⟨s, hne, Or.inr (Or.inr (Or.inr hs))⟩
  · rintro ⟨s, hne, hs | hs | hs | hs⟩
    · exact Or.inl (Or.inl (Or.inl ⟨s, hs, hne⟩))
    · exact Or.inl (Or.inl (Or.inr ⟨s, hs, hne⟩))
    · exact Or.inl (Or.inr ⟨s, hs, hne⟩)
    · exact Or.inr ⟨s, hs, hne⟩

theorem hasDataEdu_iff (d : EduData) :
    d.hasData = true ↔
      ∃ s, s ≠ "" ∧ (d.school = some s ∨ d.degree = some s ∨
        d.date_range = some s) := by
  rcases d with ⟨sc, dg, dr⟩
  simp only [EduData.hasData, Bool.or_eq_true, not_optFalsy_iff]
  constructor
  · rintro ((⟨s, hs, hne⟩ | ⟨s, hs, hne⟩) | ⟨s, hs, hne⟩)
    · exact ⟨s, hne, Or.inl hs⟩
    · exact ⟨s, hne, Or.inr (Or.inl hs)⟩
    · exact ⟨s, hne, Or.inr (Or.inr hs)⟩
  · rintro ⟨s, hne, hs | hs | hs⟩
    · exact Or.inl (Or.inl ⟨s, hs, hne⟩)
    · exact Or.inl (Or.inr ⟨s, hs, hne⟩)
    · exact Or.inr ⟨s, hs, hne⟩

theorem fieldWithFallback_of_tierA (item : Node) (sels : List Sel) (idx : Nat)
    (s : String) (ha : firstSelText item sels = some s) (hs : s ≠ "") :
    fieldWithFallback item sels idx = some s := by
  unfold fieldWithFallback
  rw [ha]
  simp [optFalsy, hs]

theorem extractCompanyEmployment_of_tierA (item : Node) (s : String)
    (ha : firstSelText item company_selectors = some s)
    (hc : (splitCompany s).1 ≠ "") :
    extractCompanyEmployment item =
      (some (splitCompany s).1, some (splitCompany s).2) := by
  unfold extractCompanyEmployment
  rw [ha]
  simp [optFalsy, hc]

theorem scanSections_eq_find (label : String) (l : List Node) :
    scanSections label l = l.find? (sectionHasHeading label) := by
  induction l with
  | nil => rfl
  | cons s rest ih =>
    unfold scanSections
    by_cases h : sectionHasHeading label s <;> simp [List.find?_cons, h, ih]

theorem firstElText_shape (doc : Node) (l : List Css) :
    firstElText doc l = none ∨ ∃ t, firstElText doc l = some (pyStrip t) := by
  induction l with
  | nil => exact Or.inl rfl
  | cons s rest ih =>
    unfold firstElText
    cases h : cssQuery doc s with
    | nil => simpa [h] using ih
    | cons e es => exact Or.inr ⟨e.text, rfl⟩

/-! ## Claim theorems -/

theorem splitCompany_of_contains (s : String)
    (h : strContains s separatorToken = true) :
    splitCompany s =
      ((pySplit s separatorToken).headD "",
        (pySplit s separatorToken).getD 1 "") := by
  unfold splitCompany
  rw [h]
  simp only [if_true]
  rcases hp : pySplit s separatorToken with _ | ⟨a, _ | ⟨b, rest⟩⟩
  · simp
  · exfalso
    rw [strContains, hp] at h
    simp at h
  · simp

/-- C1, counterexample: with the Tier-A company text `Acme · Full-time ·
Remote`, which contains the separator twice, the code records
`employment_type = Full-time`, the piece between the first and second
occurrences, not the substring after the first occurrence. -/
theorem C1_counterexample :
    strContains "Acme · Full-time · Remote" separatorToken = true ∧
    firstSelText c1Entry company_selectors = some "Acme · Full-time · Remote" ∧
    (extractExperienceData c1Entry).company = some "Acme" ∧
    (extractExperienceData c1Entry).employment_type = some "Full-time" ∧
    afterFirstSeparator "Acme · Full-time · Remote" = "Full-time · Remote" ∧
    ("Full-time" : String) ≠ "Full-time · Remote" := by
  decide

/-- C1, amended: when the extracted company text contains the separator,
`company` is the piece before the first occurrence and `employment_type`
is the second piece of splitting on every occurrence — equal to the whole
substring after the first occurrence exactly when the separator occurs
once; without the separator, `company` is the whole text and
`employment_type` the empty string. -/
theorem C1_compound_split (s : String) :
    (strContains s separatorToken = true →
      splitCompany s =
        ((pySplit s separatorToken).headD "",
          (pySplit s separatorToken).getD 1 "")) ∧
    (strContains s separatorToken = false → splitCompany s = (s, "")) ∧
    ((pySplit s separatorToken).length = 2 →
      (splitCompany s).1 = (pySplit s separatorToken).headD "" ∧
      (splitCompany s).2 = afterFirstSeparator s) := by
  refine ⟨splitCompany_of_contains s, ?_, ?_⟩
  · intro h
    unfold splitCompany
    rw [h]
    simp
  · intro h2
    have hc : strContains s separatorToken = true := by
      rw [strContains, h2]
      decide
    rcases hp : pySplit s separatorToken with _ | ⟨a, _ | ⟨b, _ | ⟨c, rest⟩⟩⟩
    · rw [hp] at h2; simp at h2
    · rw [hp] at h2; simp at h2
    · rw [splitCompany_of_contains s hc, hp]
      constructor
      · rfl
      · simp [afterFirstSeparator, hp, intercalateList]
    · rw [hp] at h2; simp at h2

/-- Witness for C1: the amended split evaluated at concrete inputs with
one separator, none, and the one-occurrence agreement with the
substring-after reading. -/
theorem C1_compound_split_witness :
    splitCompany "Acme · Remote" = ("Acme", "Remote") ∧
    splitCompany "Acme" = ("Acme", "") ∧
    (splitCompany "Acme · Remote").2 = afterFirstSeparator "Acme · Remote" := by
  refine ⟨?_, ?_, ?_⟩
  · exact ((C1_compound_split "Acme · Remote").1 (by decide)).trans (by decide)
  · exact (C1_compound_split "Acme").2.1 (by decide)
  · exact ((C1_compound_split "Acme · Remote").2.2 (by decide)).2

/-- C2: on the entry whose flattened text is the three Scenario-A lines
and which no structural pattern matches, the extractor yields the four
positional values, splitting line 1 at the separator. -/
theorem C2_scenarioA_positional :
    firstSelText scenarioAEntry title_selectors = none ∧
    firstSelText scenarioAEntry company_selectors = none ∧
    firstSelText scenarioAEntry exp_date_selectors = none ∧
    extractExperienceData scenarioAEntry =
      ⟨some "VP Engineering", some "Acme Corp", some "Full-time",
        some "Jan 2020 - Present"⟩ := by
  decide

/-- C3: an enumerated entry's field mapping appears in the output sequence
iff at least one of its extracted fields is a non-empty string. -/
theorem C3_entry_kept_iff (doc sec item : Node) :
    (locateSection doc "Experience" "experience" = some sec →
      item ∈ enumerateItems sec →
      (extractExperienceData item ∈ extractExperiences doc ↔
        ∃ s, s ≠ "" ∧
          ((extractExperienceData item).title = some s ∨
           (extractExperienceData item).company = some s ∨
           (extractExperienceData item).employment_type = some s ∨
           (extractExperienceData item).date_range = some s))) ∧
    (locateSection doc "Education" "education" = some sec →
      item ∈ enumerateItems sec →
      (extractEducationData item ∈ extractEducation doc ↔
        ∃ s, s ≠ "" ∧
          ((extractEducationData item).school = some s ∨
           (extractEducationData item).degree = some s ∨
           (extractEducationData item).date_range = some s))) := by
  constructor
  · intro hloc hmem
    have hmm : extractExperienceData item ∈
        (enumerateItems sec).map extractExperienceData :=
      List.mem_map_of_mem _ hmem
    unfold extractExperiences
    rw [hloc]
    rw [List.mem_filter]
    simp [hmm, hasDataExp_iff]
  · intro hloc hmem
    have hmm : extractEducationData item ∈
        (enumerateItems sec).map extractEducationData :=
      List.mem_map_of_mem _ hmem
    unfold extractEducation
    rw [hloc]
    rw [List.mem_filter]
    simp [hmm, hasDataEdu_iff]

/-- Witness for C3: the Scenario-A entry, which has a non-empty title, is
kept in the record's experiences. -/
theorem C3_entry_kept_iff_witness :
    extractExperienceData c3Entry ∈ extractExperiences c3Doc := by
  have he : enumerateItems c3Section = [c3Entry] := rfl
  exact ((C3_entry_kept_iff c3Doc c3Section c3Entry).1 rfl
      (by rw [he]; exact List.mem_singleton.mpr rfl)).mpr
    ⟨"VP Engineering", by decide, Or.inl (by decide)⟩

/-- C4, counterexample: the first title selector matches a descendant
whose stripped text is empty, yet the Tier-B positional line is consulted
and overrides it, so the Tier-A result is not used verbatim. -/
theorem C4_counterexample :
    firstSelText c4Entry title_selectors = some "" ∧
    (extractExperienceData c4Entry).title = some "Fallback Title" ∧
    (some "Fallback Title" : Option String) ≠ some "" := by
  decide

/-- C4, amended: a Tier-A structural match is used verbatim and the Tier-B
positional line is not consulted provided the match's stripped text (for
`company`: its part before the separator) is non-empty; an empty Tier-A
text falls through to Tier B. -/
theorem C4_tierA_wins (item : Node) (s : String) (hs : s ≠ "") :
    (firstSelText item title_selectors = some s →
      (extractExperienceData item).title = some s) ∧
    (firstSelText item exp_date_selectors = some s →
      (extractExperienceData item).date_range = some s) ∧
    (firstSelText item school_selectors = some s →
      (extractEducationData item).school = some s) ∧
    (firstSelText item degree_selectors = some s →
      (extractEducationData item).degree = some s) ∧
    (firstSelText item edu_date_selectors = some s →
      (extractEducationData item).date_range = some s) ∧
    (firstSelText item company_selectors = some s →
      (splitCompany s).1 ≠ "" →
      (extractExperienceData item).company = some (splitCompany s).1 ∧
      (extractExperienceData item).employment_type = some (splitCompany s).2) := by
  refine ⟨?_, ?_, ?_, ?_, ?_, ?_⟩
  · intro ha
    exact fieldWithFallback_of_tierA item title_selectors 0 s ha hs
  · intro ha
    exact fieldWithFallback_of_tierA item exp_date_selectors 2 s ha hs
  · intro ha
    exact fieldWithFallback_of_tierA item school_selectors 0 s ha hs
  · intro ha
    exact fieldWithFallback_of_tierA item degree_selectors 1 s ha hs
  · intro ha
    exact fieldWithFallback_of_tierA item edu_date_selectors 2 s ha hs
  · intro ha hc
    have h := extractCompanyEmployment_of_tierA item s ha hc
    constructor
    · show (extractCompanyEmployment item).1 = some (splitCompany s).1
      rw [h]
    · show (extractCompanyEmployment item).2 = some (splitCompany s).2
      rw [h]

/-- Witness for C4: a Tier-A title match with non-empty stripped text is
used even though line 0 of the flattened text differs. -/
theorem C4_tierA_wins_witness :
    (extractExperienceData c4TierAEntry).title = some "Boss" :=
  (C4_tierA_wins c4TierAEntry "Boss" (by decide)).1 (by decide)

/-- C5: the locator scans the card containers in document order and
returns the first whose heading text contains the label; otherwise it
ascends from the node whose identifier is the lower-cased label to the
enclosing section tag; if both fail the record keeps an empty education
sequence. -/
theorem C5_section_locator (doc : Node) (label anchorId url currentUrl : String) :
    (locateSection doc label anchorId =
      match (cssAll doc cardSel).find? (sectionHasHeading label) with
      | some sec => some sec
      | none => (findPathById anchorId doc).bind ascendToSectionTag) ∧
    (locateSection doc "Education" "education" = none →
      (scrape_founder_profile url (.loaded currentUrl doc)).education = []) := by
  constructor
  · unfold locateSection
    rw [scanSections_eq_find]
    cases h : (cssAll doc cardSel).find? (sectionHasHeading label) with
    | some sec => rfl
    | none =>
      cases hp : findPathById anchorId doc with
      | some path => rfl
      | none => rfl
  · intro h
    unfold scrape_founder_profile
    by_cases hr : (strContains currentUrl "login"
        || strContains currentUrl "authwall") = true
    · simp [hr, emptyProfile]
    · rw [Bool.not_eq_true] at hr
      simp only [hr, Bool.false_eq_true, if_false]
      show extractEducation doc = []
      unfold extractEducation
      rw [h]

/-- Witness for C5: a document with no Education heading and no node with
identifier `education` yields a record with an empty education list. -/
theorem C5_section_locator_witness :
    (scrape_founder_profile "https://profile"
      (.loaded "https://current" c5Doc)).education = [] :=
  (C5_section_locator c5Doc "Education" "education" "https://profile"
    "https://current").2 rfl

/-- C6, counterexample: with no canonical list item present, the items
returned are all `li` descendants of the first `ul` — here a nested inner
list item as well — not only its immediate `li` children. -/
theorem C6_counterexample :
    cssAll c6Section listItemSel = [] ∧
    (cssAll c6Section ulSel).headD c6Section = c6Ul ∧
    enumerateItems c6Section = [c6LiA, c6LiB] ∧
    immediateLiChildren c6Ul = [c6LiA] ∧
    ([c6LiA, c6LiB] : List Node) ≠ [c6LiA] :=
  ⟨rfl, rfl, rfl, rfl, fun h => by simpa using congrArg List.length h⟩

/-- C6, amended: when strategy 1 finds nothing and a list container
exists, the enumerator returns every `li` node in the subtree of the first
list container (all descendants, not only immediate children), falling
through to strategy 3 only if that set is empty. -/
theorem C6_strategy2_descendant_items (sec u : Node) (rest : List Node)
    (h1 : cssAll sec listItemSel = [])
    (h2 : cssAll sec ulSel = u :: rest)
    (h3 : cssAll u liSel ≠ []) :
    enumerateItems sec = cssAll u liSel ∧
    cssAll u liSel = u.descendants.filter (fun n => n.tag == "li") := by
  constructor
  · unfold enumerateItems
    rw [h1, h2]
    cases hq : cssAll u liSel with
    | nil => exact absurd hq h3
    | cons x xs => simp [hq]
  · unfold cssAll
    apply List.filter_congr
    intro n _
    simp [liSel, matchesSel]

/-- Witness for C6: the nested-list section evaluates to the descendant
`li` query of its first `ul`. -/
theorem C6_strategy2_descendant_items_witness :
    enumerateItems c6Section = cssAll c6Ul liSel :=
  (C6_strategy2_descendant_items c6Section c6Ul [c6InnerUl] rfl rfl
    (fun h => absurd (congrArg List.length h) (by decide))).1

/-- C7: decoding a persisted list column is total — a missing or blank
value and a decode failure all give the empty list, and a well-formed
value gives the decoded list. -/
theorem C7_decode_total (loadsE : String → Option (List ExpData))
    (loadsU : String → Option (List EduData)) (s : String) :
    parse_experiences loadsE none = [] ∧
    parse_education loadsU none = [] ∧
    (pyStrip s = "" →
      parse_experiences loadsE (some s) = [] ∧
      parse_education loadsU (some s) = []) ∧
    (loadsE s = none → parse_experiences loadsE (some s) = []) ∧
    (loadsU s = none → parse_education loadsU (some s) = []) ∧
    (∀ l, pyStrip s ≠ "" → loadsE s = some l →
      parse_experiences loadsE (some s) = l) ∧
    (∀ l, pyStrip s ≠ "" → loadsU s = some l →
      parse_education loadsU (some s) = l) := by
  refine ⟨rfl, rfl, ?_, ?_, ?_, ?_, ?_⟩
  · intro hb
    constructor
    · show (if pyStrip s == "" then [] else (loadsE s).getD []) = []
      simp [hb]
    · show (if pyStrip s == "" then [] else (loadsU s).getD []) = []
      simp [hb]
  · intro hd
    show (if pyStrip s == "" then [] else (loadsE s).getD []) = []
    rw [hd]
    by_cases hb : pyStrip s == "" <;> simp [hb]
  · intro hd
    show (if pyStrip s == "" then [] else (loadsU s).getD []) = []
    rw [hd]
    by_cases hb : pyStrip s == "" <;> simp [hb]
  · intro l hb hd
    show (if pyStrip s == "" then [] else (loadsE s).getD []) = l
    rw [hd]
    simp [hb]
  · intro l hb hd
    show (if pyStrip s == "" then [] else (loadsU s).getD []) = l
    rw [hd]
    simp [hb]

/-- Witness for C7: a successful decode, a rejected decode, and a blank
cell, each evaluated concretely. -/
theorem C7_decode_total_witness :
    parse_experiences (loadsConst [c7Record]) (some "x") = [c7Record] ∧
    parse_education loadsReject (some "x") = [] ∧
    parse_experiences (loadsConst [c7Record]) (some " ") = [] := by
  refine ⟨?_, ?_, ?_⟩
  · exact (C7_decode_total (loadsConst [c7Record]) loadsReject "x").2.2.2.2.2.1
      [c7Record] (by decide) rfl
  · exact (C7_decode_total (loadsConst [c7Record]) loadsReject "x").2.2.2.2.1 rfl
  · exact ((C7_decode_total (loadsConst [c7Record]) loadsReject " ").2.2.1
      (by decide)).1

/-- C8: every key counted by the degree and school frequency tables is the
stored value with line breaks replaced by spaces and the ends trimmed,
while the Field Extractor records the Tier-A text verbatim, internal
newline included; the Scenario-C degree is counted in collapsed form. -/
theorem C8_frequency_keys (rows : List (List EduData)) (k : String) :
    (k ∈ collectDegrees rows →
      ∃ edus, edus ∈ rows ∧ ∃ e, e ∈ edus ∧
        k = cleanKey (e.degree.getD "")) ∧
    (k ∈ collectSchools rows →
      ∃ edus, edus ∈ rows ∧ ∃ e, e ∈ edus ∧
        k = cleanKey (e.school.getD "")) ∧
    (extractEducationData scenarioCEntry).degree =
      some "Bachelor\x27s\nof Science" ∧
    cleanKey "Bachelor\x27s\nof Science" = "Bachelor\x27s of Science" := by
  refine ⟨?_, ?_, by decide, by decide⟩
  · intro hk
    rw [collectDegrees] at hk
    rw [List.mem_flatMap] at hk
    obtain ⟨edus, hedus, hk⟩ := hk
    rw [List.mem_flatMap] at hk
    obtain ⟨e, he, hk⟩ := hk
    refine ⟨edus, hedus, e, he, ?_⟩
    by_cases hd : (cleanKey (e.degree.getD "") == "") = true
    · simp [hd] at hk
    · simp [hd] at hk
      exact hk
  · intro hk
    rw [collectSchools] at hk
    rw [List.mem_flatMap] at hk
    obtain ⟨edus, hedus, hk⟩ := hk
    rw [List.mem_flatMap] at hk
    obtain ⟨e, he, hk⟩ := hk
    refine ⟨edus, hedus, e, he, ?_⟩
    by_cases hd : (cleanKey (e.school.getD "") == "") = true
    · simp [hd] at hk
    · simp [hd] at hk
      exact hk

/-- Witness for C8: the collapsed Scenario-C degree key counted from a
concrete row traces back to the stored value. -/
theorem C8_frequency_keys_witness :
    ∃ edus, edus ∈ c8Rows ∧ ∃ e, e ∈ edus ∧
      "Bachelor\x27s of Science" = cleanKey (e.degree.getD "") :=
  (C8_frequency_keys c8Rows "Bachelor\x27s of Science").1 (by decide)

/-- C9: the Field Extractor is deterministic — running it twice over the
same entry (for a whole experience or education record, or any one field)
returns identical results. -/
theorem C9_extractor_deterministic (item : Node) (sels : List Sel) (idx : Nat) :
    (runTwice extractExperienceData item).1 =
      (runTwice extractExperienceData item).2 ∧
    (runTwice extractEducationData item).1 =
      (runTwice extractEducationData item).2 ∧
    (runTwice (fun it => fieldWithFallback it sels idx) item).1 =
      (runTwice (fun it => fieldWithFallback it sels idx) item).2 :=
  ⟨rfl, rfl, rfl⟩

/-- C10: for every page outcome, including a navigation error and a
redirect, the returned record is the five-field `ProfileData` whose
`profile_url` is the input URL, whose name and headline are each absent or
a stripped string, and whose experiences and education are lists. -/
theorem C10_record_shape (url : String) (pg : PageResult) :
    (scrape_founder_profile url pg).profile_url = url ∧
    ((scrape_founder_profile url pg).name = none ∨
      ∃ t, (scrape_founder_profile url pg).name = some (pyStrip t)) ∧
    ((scrape_founder_profile url pg).headline = none ∨
      ∃ t, (scrape_founder_profile url pg).headline = some (pyStrip t)) := by
  cases pg with
  | navError => exact ⟨rfl, Or.inl rfl, Or.inl rfl⟩
  | loaded currentUrl doc =>
    cases hr : (strContains currentUrl "login"
        || strContains currentUrl "authwall") with
    | true =>
      have hscr : scrape_founder_profile url (.loaded currentUrl doc) =
          emptyProfile url := by
        simp [scrape_founder_profile, hr]
      rw [hscr]
      exact ⟨rfl, Or.inl rfl, Or.inl rfl⟩
    | false =>
      have hurl : (scrape_founder_profile url
          (.loaded currentUrl doc)).profile_url = url := by
        simp [scrape_founder_profile, hr]
      have hname : (scrape_founder_profile url
          (.loaded currentUrl doc)).name = firstElText doc nameSelectors := by
        simp [scrape_founder_profile, hr]
      have hhead : (scrape_founder_profile url
          (.loaded currentUrl doc)).headline =
          firstElText doc headlineSelectors := by
        simp [scrape_founder_profile, hr]
      refine ⟨hurl, ?_, ?_⟩
      · rw [hname]
        exact firstElText_shape doc nameSelectors
      · rw [hhead]
        exact firstElText_shape doc headlineSelectors
